import Mathlib

/-!
Verification development for the binance_short hybrid trading bot.

Shallow embedding of the core decision functions of
`modules/technical_analysis.py`, `modules/risk_manager.py` and
`modules/hybrid_portfolio_strategy.py`.  Python floats are modelled as
rationals; a float value that may be NaN (or a non-numeric entry) is
modelled as `Option ℚ` with `none` standing for NaN/invalid; a Python
dict key that may be absent is modelled with `Option`.
-/

namespace BinanceShort

/-! ## Technical analysis: `generate_signals` (technical_analysis.py 413-524) -/

/-- A possibly-NaN float cell of an indicator series. -/
abbrev FVal := Option ℚ

/-- Bollinger-band bundle, `indicators[bb]` with keys upper / middle / lower. -/
structure BB where
  upper : List FVal
  middle : List FVal
  lower : List FVal

/-- The indicator bundle consumed by `generate_signals`.  A `none` field
models a missing dict key (for MACD it also covers a missing
`histogram` sub-key, for stochastic a missing `slowk` sub-key). -/
structure Indicators where
  rsi : Option (List FVal)
  macd_histogram : Option (List FVal)
  bb : Option BB
  stoch_slowk : Option (List FVal)

/-- The signal dict produced by `generate_signals`. -/
structure Signals where
  rsi_signal : ℚ
  macd_signal : ℚ
  bb_signal : ℚ
  stoch_signal : ℚ
  combined_signal : ℚ
deriving DecidableEq

/-- RSI branch of `generate_signals` (lines 418-433): NaN resolves to 50,
strict threshold comparisons. -/
def rsiSignal (rsi_oversold rsi_overbought : ℚ) (rsi : Option (List FVal)) : ℚ :=
  match rsi with
  | none => 0
  | some l =>
    if l.length > 0 then
      let rsi_current := (l.getLast?.getD none).getD 50
      if rsi_current < rsi_oversold then 1
      else if rsi_current > rsi_overbought then -1
      else 0
    else 0

/-- MACD branch (lines 435-454): needs two histogram samples, signals only
on a sign flip of the histogram. -/
def macdSignal (hist : Option (List FVal)) : ℚ :=
  match hist with
  | none => 0
  | some l =>
    if l.length ≥ 2 then
      match l.getLast?.getD none, (l.dropLast.getLast?).getD none with
      | some hist_current, some hist_prev =>
        if hist_current > 0 ∧ hist_prev ≤ 0 then 1
        else if hist_current < 0 ∧ hist_prev ≥ 0 then -1
        else 0
      | _, _ => 0
    else 0

/-- Bollinger branch (lines 456-479): the "current price" read by the code
is the last middle-band value; any NaN yields neutral. -/
def bbSignal (bb : Option BB) : ℚ :=
  match bb with
  | none => 0
  | some b =>
    if b.lower.length > 0 ∧ b.upper.length > 0 ∧ b.middle.length > 0 then
      match b.middle.getLast?.getD none, b.upper.getLast?.getD none,
            b.lower.getLast?.getD none with
      | some current_price, some upper_band, some lower_band =>
        if current_price ≤ lower_band then 1
        else if current_price ≥ upper_band then -1
        else 0
      | _, _, _ => 0
    else 0

/-- Stochastic branch (lines 481-499): NaN slowk yields neutral. -/
def stochSignal (slowk : Option (List FVal)) : ℚ :=
  match slowk with
  | none => 0
  | some l =>
    if l.length > 0 then
      match l.getLast?.getD none with
      | some k => if k < 20 then 1 else if k > 80 then -1 else 0
      | none => 0
    else 0

/-- `generate_signals` (lines 413-524).  All four per-indicator keys are
always set to a plain number, so the `valid_signals` list of line 502 is
exactly the four of them and `combined_signal` is their mean. -/
def generateSignals (rsi_oversold rsi_overbought : ℚ) (ind : Indicators) : Signals :=
  let r := rsiSignal rsi_oversold rsi_overbought ind.rsi
  let m := macdSignal ind.macd_histogram
  let b := bbSignal ind.bb
  let s := stochSignal ind.stoch_slowk
  ⟨r, m, b, s, (r + m + b + s) / 4⟩

/-! ## Technical analysis: `_apply_noise_filter` (technical_analysis.py 376-411) -/

/-- `_apply_noise_filter`: weak signals are noise (0.1); with fewer than 3
history entries the score defaults to 0.6; otherwise the agreement ratio
of the last 3 historical signals with the current direction is mapped
through the thresholds 0.67 and 0.33. -/
def applyNoiseFilter (signals : Signals) (signal_history : List ℚ) : ℚ :=
  let combined_signal := signals.combined_signal
  if |combined_signal| < 8/100 then 1/10
  else if signal_history.length < 3 then 6/10
  else
    let recent_signals := signal_history.drop (signal_history.length - 3)
    let current_direction : ℚ := if combined_signal > 0 then 1 else -1
    let consistent_count :=
      (recent_signals.filter fun h =>
        decide ((current_direction > 0 ∧ h > 0) ∨ (current_direction < 0 ∧ h < 0))).length
    let consistency_ratio : ℚ := consistent_count / recent_signals.length
    if consistency_ratio ≥ 67/100 then 9/10
    else if consistency_ratio ≥ 33/100 then 6/10
    else 3/10

/-! ## Risk manager: adaptive position sizing (risk_manager.py 195-415) -/

/-- The `market_conditions` dict consumed by the sizing pipeline. -/
structure MarketConditions where
  volatility : ℚ
  regime : String
  liquidity : String

/-- One entry of `RiskManager.positions`.  `current_price` and
`stop_loss_price` are `Option` because the code reads them with
`dict.get` defaults (or, in `_calculate_correlation_adjustment`, by a
direct index that raises when absent). -/
structure Position where
  side : String
  size : ℚ
  price : ℚ
  current_price : Option ℚ
  exchange_type : String
  stop_loss_price : Option ℚ

/-- Sizing-relevant configuration of `RiskManager.__init__`. -/
structure RiskConfig where
  max_position_size : ℚ
  risk_per_trade : ℚ

/-- Default configuration: `max_position_size` 20 percent,
`risk_per_trade` 2 percent. -/
def defaultRiskConfig : RiskConfig := ⟨1/5, 1/50⟩

/-- The per-symbol base win rates of `_calculate_recent_win_rate`
(lines 243-255), default 0.52. -/
def baseWinRate (symbol : String) : ℚ :=
  if symbol = "BTC/USDT" then 58/100
  else if symbol = "ETH/USDT" then 56/100
  else if symbol = "BNB/USDT" then 54/100
  else if symbol = "XRP/USDT" then 52/100
  else if symbol = "SOL/USDT" then 55/100
  else if symbol = "ADA/USDT" then 53/100
  else if symbol = "AVAX/USDT" then 54/100
  else if symbol = "LINK/USDT" then 56/100
  else if symbol = "TRX/USDT" then 51/100
  else 52/100

/-- `_calculate_recent_win_rate` (lines 236-267).  The call
`random.uniform(-0.05, 0.05)` of line 260 is modelled by the explicit
`adjustment` argument, so one evaluation of the Python function
corresponds to one choice of `adjustment` in `[-1/20, 1/20]`. -/
def calculateRecentWinRate (symbol : String) (adjustment : ℚ) : ℚ :=
  max (3/10) (min (8/10) (baseWinRate symbol + adjustment))

/-- `_calculate_dynamic_kelly` (lines 269-298): regime-dependent win/loss
ratios, Kelly formula, clamp to `[0, 0.25]`. -/
def calculateDynamicKelly (symbol : String) (win_rate : ℚ) (mc : MarketConditions) : ℚ :=
  let avg_win : ℚ :=
    if mc.regime = "trending" then 18/100
    else if mc.regime = "volatile" then 12/100
    else 15/100
  let avg_loss : ℚ :=
    if mc.regime = "trending" then 9/100
    else if mc.regime = "volatile" then 12/100
    else 8/100
  if avg_win ≤ 0 then 0
  else
    let kelly_fraction := (win_rate * avg_win - (1 - win_rate) * avg_loss) / avg_win
    max 0 (min kelly_fraction (25/100))

/-- `_calculate_volatility_adjustment` (lines 300-315). -/
def calculateVolatilityAdjustment (volatility : ℚ) : ℚ :=
  if volatility > 5/100 then 1/2
  else if volatility > 3/100 then 7/10
  else if volatility > 1/100 then 1
  else 12/10

/-- `_get_regime_multiplier` (lines 317-325), dict lookup with default 1. -/
def getRegimeMultiplier (regime : String) : ℚ :=
  if regime = "trending" then 13/10
  else if regime = "ranging" then 8/10
  else if regime = "volatile" then 6/10
  else if regime = "neutral" then 1
  else 1

/-- `_calculate_liquidity_adjustment` (lines 327-334), default 1. -/
def calculateLiquidityAdjustment (liquidity : String) : ℚ :=
  if liquidity = "high" then 11/10
  else if liquidity = "normal" then 1
  else if liquidity = "low" then 7/10
  else 1

/-- `_estimate_correlation` (lines 363-378). -/
def estimateCorrelation (symbol1 symbol2 : String) : ℚ :=
  let major1 := symbol1 = "BTC/USDT" ∨ symbol1 = "ETH/USDT"
  let major2 := symbol2 = "BTC/USDT" ∨ symbol2 = "ETH/USDT"
  if major1 ∧ major2 then 8/10
  else if major1 ∨ major2 then 6/10
  else 4/10

/-- `_calculate_correlation_adjustment` (lines 336-361).  The code indexes
`position[current_price]` directly; a position without that key raises
and the `except` handler returns 0.9. -/
def calculateCorrelationAdjustment (symbol : String)
    (positions : List (String × Position)) : ℚ :=
  if positions.any (fun p => p.1 ≠ symbol ∧ p.2.current_price.isNone) then 9/10
  else
    let correlation_risk :=
      ((positions.filter (fun p => p.1 ≠ symbol)).map fun p =>
        estimateCorrelation symbol p.1 * |p.2.size * p.2.current_price.getD 0|).sum
    if correlation_risk > 8/10 then 1/2
    else if correlation_risk > 6/10 then 7/10
    else if correlation_risk > 3/10 then 9/10
    else 1

/-- `_apply_safety_limits` (lines 380-405).  `position_value` is computed
once from the incoming size and reused in all three checks. -/
def applySafetyLimits (cfg : RiskConfig)
    (calculated_size current_balance current_price : ℚ) : ℚ :=
  let position_value := calculated_size * current_price
  let max_position_value := current_balance * cfg.max_position_size
  let size1 := if position_value > max_position_value
    then max_position_value / current_price else calculated_size
  let max_risk_amount := current_balance * cfg.risk_per_trade
  let size2 := if position_value > max_risk_amount
    then max_risk_amount / current_price else size1
  if position_value < 10 then 0 else size2

/-- `adaptive_position_sizing` (lines 195-234).  The hidden random draw of
`_calculate_recent_win_rate` is surfaced as `win_rate_adjustment`. -/
def adaptivePositionSizing (cfg : RiskConfig) (positions : List (String × Position))
    (symbol : String) (signal_strength current_balance current_price : ℚ)
    (mc : MarketConditions) (win_rate_adjustment : ℚ) : ℚ :=
  let recent_win_rate := calculateRecentWinRate symbol win_rate_adjustment
  let dynamic_kelly := calculateDynamicKelly symbol recent_win_rate mc
  let volatility_adj := calculateVolatilityAdjustment mc.volatility
  let regime_multiplier := getRegimeMultiplier mc.regime
  let liquidity_adj := calculateLiquidityAdjustment mc.liquidity
  let correlation_adj := calculateCorrelationAdjustment symbol positions
  let base_size := dynamic_kelly * signal_strength
  let adjusted_size := base_size * volatility_adj * regime_multiplier *
    liquidity_adj * correlation_adj
  applySafetyLimits cfg adjusted_size current_balance current_price

/-! ## Risk manager: automatic de-risking (risk_manager.py 973-1062) -/

/-- Unrealised PnL fraction of a position, as computed inline at
lines 1030-1033. -/
def positionPnlPct (pos : Position) : ℚ :=
  let current_price := pos.current_price.getD pos.price
  if pos.side = "buy" then (current_price - pos.price) / pos.price
  else (pos.price - current_price) / pos.price

/-- `_reduce_risky_positions` (lines 1021-1043): every position losing more
than 5 percent has its size multiplied by `1 - reduction_ratio`. -/
def reduceRiskyPositions (reduction_ratio : ℚ)
    (positions : List (String × Position)) : List (String × Position) :=
  positions.map fun p =>
    if positionPnlPct p.2 < -(5/100) then
      (p.1, { p.2 with size := p.2.size * (1 - reduction_ratio) })
    else p

/-- `_tighten_stop_losses` (lines 1045-1062): forces a 3 percent stop band
around the current price on every position. -/
def tightenStopLosses (positions : List (String × Position)) : List (String × Position) :=
  positions.map fun p =>
    let current_price := p.2.current_price.getD p.2.price
    let new_stop := if p.2.side = "buy" then current_price * (97/100)
      else current_price * (103/100)
    (p.1, { p.2 with stop_loss_price := some new_stop })

/-- `_execute_automatic_responses` (lines 973-989): critical triggers a 50
percent reduction of losing positions, high tightens stop losses. -/
def executeAutomaticResponses (risk_level : String)
    (positions : List (String × Position)) : List (String × Position) :=
  if risk_level = "critical" then reduceRiskyPositions (1/2) positions
  else if risk_level = "high" then tightenStopLosses positions
  else positions

/-! ## Risk manager: alert queue (risk_manager.py 614-622, 662-673) -/

/-- One entry of `RiskManager.risk_alerts`. -/
structure RiskAlert where
  atype : String
  symbol : String
  message : String
  timestamp : ℕ
deriving DecidableEq

/-- `get_risk_alerts` (lines 614-622): returns a copy of the queue and
clears it.  The pair is (returned list, queue state after the call). -/
def getRiskAlerts (risk_alerts : List RiskAlert) : List RiskAlert × List RiskAlert :=
  (risk_alerts, [])

/-- `emergency_stop` (lines 662-673) appends one alert to the queue. -/
def emergencyStop (risk_alerts : List RiskAlert) (reason : String)
    (now : ℕ) : List RiskAlert :=
  risk_alerts ++ [⟨"emergency_stop", "ALL", reason, now⟩]

/-! ## Hybrid portfolio strategy: safe quantity (hybrid_portfolio_strategy.py 633-695) -/

/-- Round a rational to the nearest integer, ties to even: the semantics of
the builtin `round` used at lines 679-687. -/
def roundHalfEven (q : ℚ) : ℤ :=
  let f := ⌊q⌋
  let r := q - f
  if r < 1/2 then f
  else if r > 1/2 then f + 1
  else if 2 ∣ f then f else f + 1

/-- `round(x, d)`: round to `d` decimal places, ties to even. -/
def pyRound (q : ℚ) (d : ℕ) : ℚ :=
  (roundHalfEven (q * 10 ^ d) : ℚ) / 10 ^ d

/-- The `min_quantities` table of lines 640-652, default 0.001. -/
def minQuantity (symbol : String) : ℚ :=
  if symbol = "BTC/USDT" then 1/100000
  else if symbol = "ETH/USDT" then 1/10000
  else if symbol = "BNB/USDT" then 1/1000
  else if symbol = "XRP/USDT" then 1/10
  else if symbol = "SOL/USDT" then 1/1000
  else if symbol = "ADA/USDT" then 1/10
  else if symbol = "AVAX/USDT" then 1/100
  else if symbol = "LINK/USDT" then 1/100
  else if symbol = "DOT/USDT" then 1/100
  else if symbol = "MATIC/USDT" then 1/10
  else if symbol = "TRX/USDT" then 1
  else 1/1000

/-- The per-symbol decimal precision of lines 678-687, default 3. -/
def precisionDigits (symbol : String) : ℕ :=
  if symbol = "BTC/USDT" then 5
  else if symbol = "ETH/USDT" ∨ symbol = "BNB/USDT" ∨ symbol = "SOL/USDT" then 4
  else if symbol = "AVAX/USDT" ∨ symbol = "LINK/USDT" ∨ symbol = "DOT/USDT" then 3
  else if symbol = "ADA/USDT" ∨ symbol = "XRP/USDT" ∨ symbol = "MATIC/USDT" then 2
  else 3

/-- `_calculate_safe_quantity` (lines 633-695).  The `exchange_type`
argument is accepted and, as in the source, never used. -/
def calculateSafeQuantity (symbol : String) (max_amount price : ℚ)
    (exchange_type : String) : ℚ :=
  if price ≤ 0 ∨ max_amount ≤ 0 then 0
  else
    let min_notional : ℚ := 5
    let min_quantity := minQuantity symbol
    let max_quantity := max_amount / price
    if max_quantity < min_quantity then 0
    else if max_quantity * price < min_notional then 0
    else pyRound (max min_quantity max_quantity) (precisionDigits symbol)

/-! ## Hybrid portfolio strategy: opportunity detection (lines 68-203) -/

/-- One entry of `opportunities[arbitrage]`. -/
structure ArbOpp where
  symbol : String
  premium : ℚ
  spot_price : ℚ
  futures_price : ℚ
  opportunity_type : String
  expected_profit : ℚ
  confidence : ℚ
deriving DecidableEq

/-- The arbitrage branch of `analyze_market_opportunity` for one symbol
(lines 100-117): after the positivity guard of line 100, an opportunity is
recorded iff the absolute premium strictly exceeds the threshold. -/
def analyzeArbitrage (symbol : String) (spot_price futures_price : ℚ)
    (arbitrage_threshold : ℚ) : Option ArbOpp :=
  if spot_price ≤ 0 ∨ futures_price ≤ 0 then none
  else
    let premium := (futures_price - spot_price) / spot_price
    if |premium| > arbitrage_threshold then
      some ⟨symbol, premium, spot_price, futures_price,
        (if premium > 0 then "long_spot_short_futures" else "short_spot_long_futures"),
        |premium|, min (|premium| / arbitrage_threshold) 1⟩
    else none

/-! ## Hybrid portfolio strategy: signal generation (lines 205-477) -/

/-- One entry of `opportunities[trend_following]`. -/
structure TrendOpp where
  symbol : String
  direction : String
  spot_strength : ℚ
  futures_strength : ℚ
  confidence : ℚ

/-- The slice of a spot position read by the hedging block. -/
structure SpotPos where
  side : String
  size : ℚ

/-- One entry of `opportunities[hedging]`. -/
structure HedgeOpp where
  symbol : String
  hedge_type : String
  spot_position : SpotPos
  futures_strength : ℚ
  confidence : ℚ

/-- One entry of `opportunities[momentum]`. -/
structure MomOpp where
  symbol : String
  mtype : String
  spot_rsi : ℚ
  futures_rsi : ℚ
  confidence : ℚ

/-- The `opportunities` dict fed to `generate_portfolio_signals`. -/
structure Opportunities where
  arbitrage : List ArbOpp
  trend_following : List TrendOpp
  hedging : List HedgeOpp
  momentum : List MomOpp

/-- The balance fields of the `portfolio_state` dict (missing keys default
to 0 in the source via `dict.get`). -/
structure PortfolioState where
  total_balance : ℚ
  spot_balance : ℚ
  futures_balance : ℚ
  spot_free_balance : ℚ
  futures_free_balance : ℚ

/-- Last spot and futures ticker prices for one symbol of `market_data`
(missing tickers default to 0). -/
structure MarketEntry where
  spot_last : ℚ
  futures_last : ℚ

/-- A signal dict emitted by `generate_portfolio_signals`;
`expected_return` is only present on arbitrage signals. -/
structure Signal where
  strategy : String
  symbol : String
  exchange_type : String
  action : String
  size : ℚ
  confidence : ℚ
  expected_return : Option ℚ
  priority : ℕ

/-- `futures_supported_symbols` (lines 47-51). -/
def futuresSupported (symbol : String) : Bool :=
  symbol = "BTC/USDT" ∨ symbol = "ETH/USDT" ∨ symbol = "BNB/USDT" ∨
  symbol = "XRP/USDT" ∨ symbol = "SOL/USDT" ∨ symbol = "ADA/USDT" ∨
  symbol = "AVAX/USDT" ∨ symbol = "LINK/USDT" ∨ symbol = "TRX/USDT"

/-- `futures_symbol_mapping.get(symbol, symbol)` (lines 54-64): each
supported spot symbol maps to its USDT-margined form. -/
def futuresSymbolMapping (symbol : String) : String :=
  if futuresSupported symbol then symbol ++ ":USDT" else symbol

/-- Arbitrage block of `generate_portfolio_signals` (lines 223-326).
The signal-building code sits in the `else` branch of the
`confidence >= 0.25` test and reads the local variables
`spot_quantity` / `futures_quantity`, which are only assigned inside a
previous high-confidence iteration; the accumulator `qs` models those
locals and `Except.error` models the `NameError` raised (and caught by
the outer handler, which returns `[]`) when they are still unbound. -/
def arbLoop (spot_free_balance futures_free_balance : ℚ) :
    List ArbOpp → Option (ℚ × ℚ) → Except Unit (List Signal)
  | [], _ => .ok []
  | arb :: rest, qs =>
    if arb.confidence ≥ 25/100 then
      let max_spot_amount := if spot_free_balance < 5 then 0
        else min (spot_free_balance * (8/10)) 100
      let max_futures_amount := if futures_free_balance < 5 then 0
        else min (futures_free_balance * (8/10)) 100
      if max_spot_amount < 5 ∧ max_futures_amount < 5 then
        arbLoop spot_free_balance futures_free_balance rest qs
      else
        let spot_quantity :=
          calculateSafeQuantity arb.symbol max_spot_amount arb.spot_price "spot"
        let futures_quantity :=
          calculateSafeQuantity arb.symbol max_futures_amount arb.futures_price "futures"
        arbLoop spot_free_balance futures_free_balance rest
          (some (spot_quantity, futures_quantity))
    else
      match qs with
      | none => .error ()
      | some (spot_quantity, futures_quantity) =>
        let here : List Signal :=
          if futuresSupported arb.symbol then
            let futures_symbol := futuresSymbolMapping arb.symbol
            if arb.opportunity_type = "long_spot_short_futures" then
              [⟨"arbitrage", arb.symbol, "spot", "buy", spot_quantity,
                 arb.confidence, some arb.expected_profit, 1⟩,
               ⟨"arbitrage", futures_symbol, "futures", "sell", futures_quantity,
                 arb.confidence, some arb.expected_profit, 1⟩]
            else
              [⟨"arbitrage", arb.symbol, "spot", "sell", spot_quantity,
                 arb.confidence, some arb.expected_profit, 1⟩,
               ⟨"arbitrage", futures_symbol, "futures", "buy", futures_quantity,
                 arb.confidence, some arb.expected_profit, 1⟩]
          else
            [⟨"arbitrage_spot_only", arb.symbol, "spot",
               (if arb.opportunity_type = "long_spot_short_futures" then "buy" else "sell"),
               spot_quantity, arb.confidence, some arb.expected_profit, 1⟩]
        (arbLoop spot_free_balance futures_free_balance rest qs).map (here ++ ·)

/-- Trend-following block (lines 328-391).  Bearish trends are always
skipped by the sell guard of lines 363-367. -/
def trendLoop (spot_free_balance futures_free_balance : ℚ)
    (market_data : Option (String → MarketEntry)) : List TrendOpp → List Signal
  | [] => []
  | trend :: rest =>
    let tail := trendLoop spot_free_balance futures_free_balance market_data rest
    if trend.confidence ≥ 25/100 then
      let entry := match market_data with
        | none => MarketEntry.mk 0 0
        | some md => md trend.symbol
      if entry.spot_last ≤ (0 : ℚ) ∨ entry.futures_last ≤ (0 : ℚ) then tail
      else
        let max_spot_amount := spot_free_balance * (3/100)
        let max_futures_amount := futures_free_balance * (3/100)
        if max_spot_amount < 5 ∧ max_futures_amount < 5 then tail
        else
          let spot_size :=
            calculateSafeQuantity trend.symbol max_spot_amount entry.spot_last "spot"
          let futures_size :=
            calculateSafeQuantity trend.symbol max_futures_amount entry.futures_last "futures"
          if spot_size ≤ 0 then tail
          else
            let action := if trend.direction = "bullish" then "buy" else "sell"
            if action = "sell" then tail
            else
              let spot_sig : Signal :=
                ⟨"trend_following", trend.symbol, "spot", action, spot_size,
                  trend.confidence, none, 2⟩
              if futuresSupported trend.symbol ∧ futures_size > 0 then
                spot_sig :: ⟨"trend_following", futuresSymbolMapping trend.symbol,
                  "futures", action, futures_size, trend.confidence, none, 2⟩ :: tail
              else spot_sig :: tail
    else tail

/-- Hedging block (lines 393-409). -/
def hedgeSignals (hedges : List HedgeOpp) : List Signal :=
  (hedges.filter fun h => h.confidence > 4/10).map fun hedge =>
    ⟨"hedging", hedge.symbol, "futures",
      (if hedge.hedge_type = "protective_short" then "sell" else "buy"),
      hedge.spot_position.size * (8/10), hedge.confidence, none, 3⟩

/-- Momentum block (lines 411-468). -/
def momLoop (spot_free_balance futures_free_balance : ℚ)
    (market_data : Option (String → MarketEntry)) : List MomOpp → List Signal
  | [] => []
  | momentum :: rest =>
    let tail := momLoop spot_free_balance futures_free_balance market_data rest
    if momentum.confidence > 1/2 then
      let current_price := match market_data with
        | none => 0
        | some md => (md momentum.symbol).spot_last
      if current_price ≤ 0 then tail
      else
        let max_momentum_amount := min spot_free_balance futures_free_balance * (2/100)
        if max_momentum_amount < 10 then tail
        else if momentum.mtype = "oversold_bounce" then
          let spot_quantity :=
            calculateSafeQuantity momentum.symbol max_momentum_amount current_price "spot"
          let futures_quantity :=
            calculateSafeQuantity momentum.symbol max_momentum_amount current_price "futures"
          let withSpot : List Signal :=
            if spot_quantity > 0 then
              [⟨"momentum", momentum.symbol, "spot", "buy", spot_quantity,
                 momentum.confidence, none, 4⟩]
            else []
          let withFut : List Signal :=
            if futures_quantity > 0 ∧ futuresSupported momentum.symbol then
              [⟨"momentum", futuresSymbolMapping momentum.symbol, "futures", "buy",
                 futures_quantity, momentum.confidence, none, 4⟩]
            else []
          withSpot ++ withFut ++ tail
        else
          if futuresSupported momentum.symbol then
            let futures_quantity :=
              calculateSafeQuantity momentum.symbol max_momentum_amount current_price "futures"
            if futures_quantity > 0 then
              ⟨"momentum", futuresSymbolMapping momentum.symbol, "futures", "sell",
                futures_quantity, momentum.confidence, none, 4⟩ :: tail
            else tail
          else tail
    else tail

/-- Priority order used by the final `signals.sort` (line 471). -/
def prioLE (a b : Signal) : Prop := a.priority ≤ b.priority

instance : DecidableRel prioLE := fun a b => Nat.decLe a.priority b.priority

instance : IsTotal Signal prioLE := ⟨fun a b => Nat.le_total a.priority b.priority⟩

instance : IsTrans Signal prioLE := ⟨fun _ _ _ => Nat.le_trans⟩

/-- `generate_portfolio_signals` (lines 205-477): early return on twin
balance shortage, the four opportunity blocks, a stable ascending sort by
priority and the cap of 10.  Any `NameError` escaping the arbitrage block
hits the outer `except`, which returns `[]`. -/
def generatePortfolioSignals (opportunities : Opportunities)
    (portfolio_state : PortfolioState)
    (market_data : Option (String → MarketEntry)) : List Signal :=
  let spot_free_balance := portfolio_state.spot_free_balance
  let futures_free_balance := portfolio_state.futures_free_balance
  if spot_free_balance < 5 ∧ futures_free_balance < 5 then []
  else
    let sorted_arbs := List.insertionSort
      (fun a b : ArbOpp => a.expected_profit ≥ b.expected_profit)
      opportunities.arbitrage
    match arbLoop spot_free_balance futures_free_balance sorted_arbs none with
    | .error _ => []
    | .ok arb_signals =>
      let trend_signals := trendLoop spot_free_balance futures_free_balance market_data
        (List.insertionSort (fun a b : TrendOpp => a.confidence ≥ b.confidence)
          opportunities.trend_following)
      let hedge_sigs := hedgeSignals opportunities.hedging
      let mom_signals := momLoop spot_free_balance futures_free_balance market_data
        (List.insertionSort (fun a b : MomOpp => a.confidence ≥ b.confidence)
          opportunities.momentum)
      let signals := arb_signals ++ trend_signals ++ hedge_sigs ++ mom_signals
      (List.insertionSort prioLE signals).take 10

/-! ## Hybrid portfolio strategy: rebalancing check (lines 479-529) -/

/-- Strategy configuration fields read by `check_rebalancing_needed`. -/
structure StrategyConfig where
  spot_allocation : ℚ
  futures_allocation : ℚ
  rebalance_threshold : ℚ
  rebalance_interval_minutes : ℚ
  auto_transfer_enabled : Bool

/-- Defaults of `HybridPortfolioStrategy.__init__`. -/
def defaultStrategyConfig : StrategyConfig := ⟨2/5, 3/5, 3/100, 15, true⟩

/-- `check_rebalancing_needed` (lines 479-529).  `elapsed_minutes` models
`datetime.now() - self.last_rebalance` in minutes. -/
def checkRebalancingNeeded (cfg : StrategyConfig) (portfolio_state : PortfolioState)
    (elapsed_minutes : ℚ) : Bool :=
  let total_balance := portfolio_state.total_balance
  if total_balance ≤ 100 then false
  else
    let current_spot_ratio := portfolio_state.spot_balance / total_balance
    let current_futures_ratio := portfolio_state.futures_balance / total_balance
    let spot_deviation := |current_spot_ratio - cfg.spot_allocation|
    let futures_deviation := |current_futures_ratio - cfg.futures_allocation|
    let time_exceeded := elapsed_minutes > cfg.rebalance_interval_minutes
    let adjusted_threshold := if cfg.auto_transfer_enabled
      then cfg.rebalance_threshold else cfg.rebalance_threshold * 2
    let min_balance_for_rebalancing : ℚ := if cfg.auto_transfer_enabled then 20 else 200
    decide (((spot_deviation > adjusted_threshold ∨ futures_deviation > adjusted_threshold) ∧
        total_balance ≥ min_balance_for_rebalancing) ∨
      (time_exceeded ∧ spot_deviation > cfg.rebalance_threshold * (1/2)))

/-! ## Range lemmas for the per-indicator signals -/

lemma rsiSignal_bounds (a b : ℚ) (r : Option (List FVal)) :
    -1 ≤ rsiSignal a b r ∧ rsiSignal a b r ≤ 1 := by
  unfold rsiSignal
  rcases r with _ | l
  · norm_num
  · dsimp only
    repeat' split
    all_goals norm_num

lemma macdSignal_bounds (h : Option (List FVal)) :
    -1 ≤ macdSignal h ∧ macdSignal h ≤ 1 := by
  unfold macdSignal
  rcases h with _ | l
  · norm_num
  · dsimp only
    repeat' split
    all_goals norm_num

lemma bbSignal_bounds (b : Option BB) :
    -1 ≤ bbSignal b ∧ bbSignal b ≤ 1 := by
  unfold bbSignal
  rcases b with _ | b
  · norm_num
  · dsimp only
    repeat' split
    all_goals norm_num

lemma stochSignal_bounds (s : Option (List FVal)) :
    -1 ≤ stochSignal s ∧ stochSignal s ≤ 1 := by
  unfold stochSignal
  rcases s with _ | l
  · norm_num
  · dsimp only
    repeat' split
    all_goals norm_num

/-! ## Claim theorems -/

/-- C10: for every indicator bundle (including empty, partial or
NaN-containing ones) `generate_signals` returns all five signal keys as
plain numbers, with `combined_signal` the arithmetic mean of the four
per-indicator signals, hence in `[-1, 1]`.  Totality of the Lean function
over all `Indicators` captures the never-raises / never-NaN part. -/
theorem generate_signals_combined_mean_and_bounded
    (rsi_oversold rsi_overbought : ℚ) (ind : Indicators) :
    (generateSignals rsi_oversold rsi_overbought ind).combined_signal =
      ((generateSignals rsi_oversold rsi_overbought ind).rsi_signal +
       (generateSignals rsi_oversold rsi_overbought ind).macd_signal +
       (generateSignals rsi_oversold rsi_overbought ind).bb_signal +
       (generateSignals rsi_oversold rsi_overbought ind).stoch_signal) / 4 ∧
    -1 ≤ (generateSignals rsi_oversold rsi_overbought ind).combined_signal ∧
    (generateSignals rsi_oversold rsi_overbought ind).combined_signal ≤ 1 := by
  obtain ⟨hr1, hr2⟩ := rsiSignal_bounds rsi_oversold rsi_overbought ind.rsi
  obtain ⟨hm1, hm2⟩ := macdSignal_bounds ind.macd_histogram
  obtain ⟨hb1, hb2⟩ := bbSignal_bounds ind.bb
  obtain ⟨hs1, hs2⟩ := stochSignal_bounds ind.stoch_slowk
  refine ⟨rfl, ?_, ?_⟩ <;>
    · simp only [generateSignals]
      linarith

/-- C4 (failing input): a combined signal of strength 0.5 whose last three
historical signals agree twice out of three scores 0.6 in the code, not the
0.9 the claim states: the agreement ratio 2/3 fails the strict float
threshold 0.67 of line 402. -/
theorem noise_filter_two_of_three_scores_06 :
    applyNoiseFilter ⟨1, 1, 0, 0, 1/2⟩ [1, 1, -1] = 6/10 ∧
    ((2 : ℚ) / 3 ≥ 67/100) = False := by
  constructor
  · rw [applyNoiseFilter]
    rw [abs_of_pos (by norm_num : (0:ℚ) < 1/2)]
    norm_num [List.filter]
  · norm_num

/-- C5: the dynamic Kelly fraction is clamped to `[0, 0.25]` for every
regime and win rate in `[0,1]`, and the spec scenario (win rate 0.58,
trending regime) has raw Kelly 0.37 and clamps to exactly 0.25. -/
theorem dynamic_kelly_clamped :
    (∀ (symbol : String) (mc : MarketConditions) (win_rate : ℚ),
        0 ≤ win_rate → win_rate ≤ 1 →
        0 ≤ calculateDynamicKelly symbol win_rate mc ∧
        calculateDynamicKelly symbol win_rate mc ≤ 25/100) ∧
    calculateDynamicKelly "BTC/USDT" (58/100) ⟨2/100, "trending", "normal"⟩ = 25/100 ∧
    ((58:ℚ)/100 * (18/100) - (1 - 58/100) * (9/100)) / (18/100) = 37/100 := by
  refine ⟨?_, by rw [calculateDynamicKelly]; norm_num, by norm_num⟩
  intro symbol mc win_rate _ _
  simp only [calculateDynamicKelly]
  constructor <;> (repeat' split) <;> norm_num

/-- C5 witness: the clamp bounds at the concrete spec scenario. -/
theorem dynamic_kelly_clamped_witness :
    (0:ℚ) ≤ 58/100 ∧ (58:ℚ)/100 ≤ 1 ∧
    (0 ≤ calculateDynamicKelly "BTC/USDT" (58/100) ⟨2/100, "trending", "normal"⟩ ∧
     calculateDynamicKelly "BTC/USDT" (58/100) ⟨2/100, "trending", "normal"⟩ ≤ 25/100) :=
  ⟨by norm_num, by norm_num,
    dynamic_kelly_clamped.1 "BTC/USDT" ⟨2/100, "trending", "normal"⟩ (58/100)
      (by norm_num) (by norm_num)⟩

/-- C1 (failing input): one losing long position (entry 100, current 90,
size 1).  A single critical-level automatic response halves it to 1/2; a
second invocation halves it again to 1/4, so the 50 percent reduction is
not idempotent — nothing tracks that it was already applied. -/
theorem critical_response_not_idempotent :
    ((executeAutomaticResponses "critical"
        [("BTC/USDT", ⟨"buy", 1, 100, some 90, "spot", none⟩)]).map
          (fun p => p.2.size) = [1/2]) ∧
    ((executeAutomaticResponses "critical" (executeAutomaticResponses "critical"
        [("BTC/USDT", ⟨"buy", 1, 100, some 90, "spot", none⟩)])).map
          (fun p => p.2.size) = [1/4]) ∧
    (1/4 : ℚ) ≠ 1/2 := by
  refine ⟨?_, ?_, by norm_num⟩ <;>
    norm_num [executeAutomaticResponses, reduceRiskyPositions, positionPnlPct]

/-- C8: `get_risk_alerts` returns exactly the accumulated alerts and leaves
the queue empty, so an immediate second call returns the empty list; an
alert appended by `emergency_stop` is delivered exactly once. -/
theorem risk_alert_queue_drain_on_read (s : List RiskAlert) (reason : String) (t : ℕ) :
    (getRiskAlerts s).1 = s ∧ (getRiskAlerts s).2 = [] ∧
    getRiskAlerts (getRiskAlerts s).2 = ([], []) ∧
    (getRiskAlerts (emergencyStop s reason t)).1 =
      s ++ [⟨"emergency_stop", "ALL", reason, t⟩] :=
  ⟨rfl, rfl, rfl, rfl⟩

/-- C2 (failing input): `adaptive_position_sizing` reads
`random.uniform(-0.05, 0.05)` inside `_calculate_recent_win_rate`, so two
calls with identical arguments and unchanged positions can return
different sizes.  Here the symbol DOGE/USDT (base win rate 0.52), signal
strength 1, balance 100000, price 1000, neutral regime: the draw 0 gives
size 1/4 (Kelly clamped at 0.25), the draw -1/20 gives 281/1500. -/
theorem adaptive_sizing_depends_on_hidden_random_draw :
    adaptivePositionSizing defaultRiskConfig [] "DOGE/USDT" 1 100000 1000
        ⟨2/100, "neutral", "normal"⟩ 0 = 1/4 ∧
    adaptivePositionSizing defaultRiskConfig [] "DOGE/USDT" 1 100000 1000
        ⟨2/100, "neutral", "normal"⟩ (-(1/20)) = 281/1500 ∧
    (1/4 : ℚ) ≠ 281/1500 ∧
    |(0 : ℚ)| ≤ 1/20 ∧ |(-(1/20) : ℚ)| ≤ 1/20 := by
  have hvol : calculateVolatilityAdjustment (2/100) = 1 := by
    norm_num [calculateVolatilityAdjustment]
  have hreg : getRegimeMultiplier "neutral" = 1 := by
    simp [getRegimeMultiplier]
  have hliq : calculateLiquidityAdjustment "normal" = 1 := by
    simp [calculateLiquidityAdjustment]
  have hcorr : calculateCorrelationAdjustment "DOGE/USDT" [] = 1 := by
    norm_num [calculateCorrelationAdjustment, List.any, List.filter]
  have hwr0 : calculateRecentWinRate "DOGE/USDT" 0 = 52/100 := by
    simp only [calculateRecentWinRate, baseWinRate, String.reduceEq, reduceIte]
    norm_num [min_def, max_def]
  have hwr1 : calculateRecentWinRate "DOGE/USDT" (-(1/20)) = 47/100 := by
    simp only [calculateRecentWinRate, baseWinRate, String.reduceEq, reduceIte]
    norm_num [min_def, max_def]
  have hk0 : calculateDynamicKelly "DOGE/USDT" (52/100) ⟨2/100, "neutral", "normal"⟩
      = 1/4 := by
    simp only [calculateDynamicKelly, String.reduceEq, reduceIte]
    norm_num [min_def, max_def]
  have hk1 : calculateDynamicKelly "DOGE/USDT" (47/100) ⟨2/100, "neutral", "normal"⟩
      = 281/1500 := by
    simp only [calculateDynamicKelly, String.reduceEq, reduceIte]
    norm_num [min_def, max_def]
  refine ⟨?_, ?_, by norm_num, by norm_num, ?_⟩
  · simp only [adaptivePositionSizing, hwr0, hk0, hvol, hreg, hliq, hcorr]
    norm_num [applySafetyLimits, defaultRiskConfig]
  · simp only [adaptivePositionSizing, hwr1, hk1, hvol, hreg, hliq, hcorr]
    norm_num [applySafetyLimits, defaultRiskConfig]
  · rw [abs_neg]
    rw [abs_of_nonneg (by norm_num : (0:ℚ) ≤ 1/20)]

/-- C6: with positive spot and futures prices the arbitrage branch records
an opportunity exactly when the absolute premium strictly exceeds the
threshold, with confidence `min(|premium|/threshold, 1)` and the
long-spot/short-futures direction exactly for positive premium; the spec
scenario (spot 100, futures 100.06, threshold 0.0005) records an
opportunity with premium 0.0006, confidence exactly 1 and direction
long-spot/short-futures. -/
theorem arbitrage_opportunity_characterisation (symbol : String)
    (spot_price futures_price arbitrage_threshold : ℚ)
    (hs : 0 < spot_price) (hf : 0 < futures_price) :
    (((analyzeArbitrage symbol spot_price futures_price arbitrage_threshold).isSome ↔
      |(futures_price - spot_price) / spot_price| > arbitrage_threshold) ∧
    (∀ a ∈ analyzeArbitrage symbol spot_price futures_price arbitrage_threshold,
      a.confidence =
        min (|(futures_price - spot_price) / spot_price| / arbitrage_threshold) 1 ∧
      (a.opportunity_type = "long_spot_short_futures" ↔
        (futures_price - spot_price) / spot_price > 0))) ∧
    analyzeArbitrage "BTC/USDT" 100 (10006/100) (5/10000) =
      some ⟨"BTC/USDT", 6/10000, 100, 10006/100, "long_spot_short_futures",
        6/10000, 1⟩ := by
  refine ⟨?_, ?_⟩
  case refine_2 =>
    rw [analyzeArbitrage]
    norm_num
    rw [abs_of_pos (by norm_num : (0:ℚ) < 3/5000)]
    norm_num
  have hguard : ¬(spot_price ≤ 0 ∨ futures_price ≤ 0) := by
    push_neg
    exact ⟨hs, hf⟩
  simp only [analyzeArbitrage, if_neg hguard]
  constructor
  · split
    · rename_i hgt
      simpa using hgt
    · rename_i hngt
      simpa using hngt
  · intro a ha
    rw [Option.mem_def] at ha
    split at ha
    · rename_i hgt
      injection ha with ha
      subst ha
      refine ⟨rfl, ?_⟩
      split
      · rename_i hpos
        exact iff_of_true rfl hpos
      · rename_i hpos
        constructor
        · intro hcontra
          simp at hcontra
        · intro hp
          exact absurd hp hpos
    · exact absurd ha (by simp)

/-- C6 witness: the characterisation applied at the spec scenario. -/
theorem arbitrage_opportunity_characterisation_witness :
    (0:ℚ) < 100 ∧ (0:ℚ) < 10006/100 ∧
    ((analyzeArbitrage "BTC/USDT" 100 (10006/100) (5/10000)).isSome ↔
      |((10006:ℚ)/100 - 100) / 100| > 5/10000) :=
  ⟨by norm_num, by norm_num,
    (arbitrage_opportunity_characterisation "BTC/USDT" 100 (10006/100) (5/10000)
      (by norm_num) (by norm_num)).1.1⟩

/-- C9: whenever the portfolio total balance is at most 100 the
rebalancing check returns `False` unconditionally — the early return of
line 487 fires before any deviation or elapsed-time condition is read. -/
theorem no_rebalancing_at_small_balance (cfg : StrategyConfig)
    (portfolio_state : PortfolioState) (elapsed_minutes : ℚ)
    (h : portfolio_state.total_balance ≤ 100) :
    checkRebalancingNeeded cfg portfolio_state elapsed_minutes = false := by
  unfold checkRebalancingNeeded
  rw [if_pos h]

/-- C9 witness: balance 50 with maximal allocation drift and a huge
elapsed time still yields no rebalancing. -/
theorem no_rebalancing_at_small_balance_witness :
    (50 : ℚ) ≤ 100 ∧
    checkRebalancingNeeded defaultStrategyConfig ⟨50, 50, 0, 0, 0⟩ 100000 = false :=
  ⟨by norm_num,
    no_rebalancing_at_small_balance defaultStrategyConfig ⟨50, 50, 0, 0, 0⟩ 100000
      (by norm_num)⟩

/-! ## Rounding error bounds for C3 -/

lemma roundHalfEven_dist (q : ℚ) : |(roundHalfEven q : ℚ) - q| ≤ 1/2 := by
  have hf : (⌊q⌋ : ℚ) ≤ q := Int.floor_le q
  have hf1 : q < (⌊q⌋ : ℚ) + 1 := Int.lt_floor_add_one q
  unfold roundHalfEven
  dsimp only
  split
  · rename_i h
    rw [abs_le]
    constructor <;> linarith
  · split
    · rename_i h h2
      push_neg at h
      rw [abs_le]
      push_cast
      constructor <;> linarith
    · split <;>
        · rename_i h h2 _
          push_neg at h h2
          rw [abs_le]
          push_cast
          constructor <;> linarith

lemma pyRound_dist (q : ℚ) (d : ℕ) : |pyRound q d - q| ≤ 1 / (2 * 10 ^ d) := by
  have h10 : (0:ℚ) < 10 ^ d := by positivity
  have hrw : pyRound q d - q = ((roundHalfEven (q * 10 ^ d) : ℚ) - q * 10 ^ d) / 10 ^ d := by
    unfold pyRound
    field_simp
    ring
  have h2 := roundHalfEven_dist (q * 10 ^ d)
  rw [hrw, abs_div, abs_of_pos h10, div_le_div_iff₀ h10 (by positivity)]
  nlinarith [h2, h10]

/-- C3 counterexample: with the default symbol table entry, max_amount 5
and price 7 the routine returns 0.714, whose notional 4.998 is below the
5-dollar floor; with max_amount 7 and price 9 it returns 0.778, which is
strictly above the exact quantity 7/9 — the rounding of line 687 is
round-to-nearest, not rounding down. -/
theorem safe_quantity_counterexample :
    (calculateSafeQuantity "FOO/USDT" 5 7 "spot" = 357/500 ∧
     (357:ℚ)/500 ≠ 0 ∧ (357:ℚ)/500 * 7 < 5) ∧
    (calculateSafeQuantity "FOO/USDT" 7 9 "spot" = 389/500 ∧
     (389:ℚ)/500 > 7/9) := by
  have hr1 : roundHalfEven ((5:ℚ)/7 * 10 ^ 3) = 714 := by
    have : ⌊((5:ℚ)/7 * 10 ^ 3)⌋ = 714 := by
      rw [Int.floor_eq_iff]
      norm_num
    unfold roundHalfEven
    rw [this]
    norm_num
  have hr2 : roundHalfEven ((7:ℚ)/9 * 10 ^ 3) = 778 := by
    have : ⌊((7:ℚ)/9 * 10 ^ 3)⌋ = 777 := by
      rw [Int.floor_eq_iff]
      norm_num
    unfold roundHalfEven
    rw [this]
    norm_num
  refine ⟨⟨?_, by norm_num, by norm_num⟩, ?_, by norm_num⟩
  · rw [calculateSafeQuantity]
    simp only [minQuantity, precisionDigits, String.reduceEq, reduceIte,
      false_or, or_false]
    rw [if_neg (by norm_num), if_neg (by norm_num), if_neg (by norm_num)]
    rw [max_eq_right (by norm_num)]
    unfold pyRound
    rw [hr1]
    norm_num
  · rw [calculateSafeQuantity]
    simp only [minQuantity, precisionDigits, String.reduceEq, reduceIte,
      false_or, or_false]
    rw [if_neg (by norm_num), if_neg (by norm_num), if_neg (by norm_num)]
    rw [max_eq_right (by norm_num)]
    unfold pyRound
    rw [hr2]
    norm_num

/-- C3 amended: the zero cases are exact; a nonzero result is the exact
quantity max_amount/price rounded to the nearest value at the symbol
precision (which may round up), so its notional sits within half a
precision step times the price of max_amount (itself at least 5). -/
theorem safe_quantity_amended (symbol : String) (max_amount price : ℚ)
    (exchange_type : String) :
    (price ≤ 0 ∨ max_amount ≤ 0 →
      calculateSafeQuantity symbol max_amount price exchange_type = 0) ∧
    (0 < price → 0 < max_amount →
      calculateSafeQuantity symbol max_amount price exchange_type = 0 ∨
      (5 ≤ max_amount ∧
       calculateSafeQuantity symbol max_amount price exchange_type =
         pyRound (max_amount / price) (precisionDigits symbol) ∧
       |calculateSafeQuantity symbol max_amount price exchange_type * price -
         max_amount| ≤ price / (2 * 10 ^ precisionDigits symbol) ∧
       5 - price / (2 * 10 ^ precisionDigits symbol) ≤
         calculateSafeQuantity symbol max_amount price exchange_type * price)) := by
  constructor
  · intro h
    rw [calculateSafeQuantity, if_pos h]
  · intro hp hm
    have hguard : ¬(price ≤ 0 ∨ max_amount ≤ 0) := by
      push_neg
      exact ⟨hp, hm⟩
    rw [calculateSafeQuantity]
    rw [if_neg hguard]
    dsimp only
    split
    · exact Or.inl rfl
    · split
      · exact Or.inl rfl
      · rename_i hminq hnot
        refine Or.inr ?_
        have hqp : max_amount / price * price = max_amount :=
          div_mul_cancel₀ max_amount (ne_of_gt hp)
        have h5 : 5 ≤ max_amount := by
          push_neg at hnot
          calc (5:ℚ) ≤ max_amount / price * price := hnot
          _ = max_amount := hqp
        have hmax : max (minQuantity symbol) (max_amount / price) = max_amount / price := by
          push_neg at hminq
          exact max_eq_right hminq
        rw [hmax]
        refine ⟨h5, rfl, ?_, ?_⟩
        · have hd := pyRound_dist (max_amount / price) (precisionDigits symbol)
          have heq : pyRound (max_amount / price) (precisionDigits symbol) * price -
              max_amount =
              (pyRound (max_amount / price) (precisionDigits symbol) -
                max_amount / price) * price := by
            rw [sub_mul, hqp]
          rw [heq, abs_mul, abs_of_pos hp]
          have hmul := mul_le_mul_of_nonneg_right hd (le_of_lt hp)
          have hr : 1 / (2 * 10 ^ precisionDigits symbol) * price =
              price / (2 * 10 ^ precisionDigits symbol) := by ring
          rw [hr] at hmul
          exact hmul
        · have hd := pyRound_dist (max_amount / price) (precisionDigits symbol)
          have habs := (abs_le.mp hd).1
          have hdenpos : (0:ℚ) < 2 * 10 ^ precisionDigits symbol := by positivity
          have hineq : max_amount / price - 1 / (2 * 10 ^ precisionDigits symbol) ≤
              pyRound (max_amount / price) (precisionDigits symbol) := by linarith
          have := mul_le_mul_of_nonneg_right hineq (le_of_lt hp)
          rw [sub_mul, hqp] at this
          have hrw : 1 / (2 * 10 ^ precisionDigits symbol) * price =
              price / (2 * 10 ^ precisionDigits symbol) := by
            field_simp
          rw [hrw] at this
          linarith

/-- C3 witness: the amended bound instantiated at symbol FOO/USDT,
max_amount 5, price 7. -/
theorem safe_quantity_amended_witness :
    (0:ℚ) < 7 ∧ (0:ℚ) < 5 ∧
    (calculateSafeQuantity "FOO/USDT" 5 7 "spot" = 0 ∨
      (5 ≤ (5:ℚ) ∧
       calculateSafeQuantity "FOO/USDT" 5 7 "spot" =
         pyRound (5 / 7) (precisionDigits "FOO/USDT") ∧
       |calculateSafeQuantity "FOO/USDT" 5 7 "spot" * 7 - 5| ≤
         7 / (2 * 10 ^ precisionDigits "FOO/USDT") ∧
       5 - 7 / (2 * 10 ^ precisionDigits "FOO/USDT") ≤
         calculateSafeQuantity "FOO/USDT" 5 7 "spot" * 7)) :=
  ⟨by norm_num, by norm_num,
    (safe_quantity_amended "FOO/USDT" 5 7 "spot").2 (by norm_num) (by norm_num)⟩

/-- C7: for every opportunities, portfolio-state and market-data input
the signal list returned by `generate_portfolio_signals` is sorted by the
priority field in ascending order and holds at most 10 signals. -/
theorem portfolio_signals_sorted_and_capped (opportunities : Opportunities)
    (portfolio_state : PortfolioState)
    (market_data : Option (String → MarketEntry)) :
    List.Sorted prioLE
      (generatePortfolioSignals opportunities portfolio_state market_data) ∧
    (generatePortfolioSignals opportunities portfolio_state market_data).length
      ≤ 10 := by
  unfold generatePortfolioSignals
  dsimp only
  split
  · exact ⟨List.sorted_nil, by simp⟩
  · split
    · exact ⟨List.sorted_nil, by simp⟩
    · constructor
      · exact (List.sorted_insertionSort prioLE _).sublist (List.take_sublist _ _)
      · rw [List.length_take]
        exact min_le_left _ _

end BinanceShort
